import Mathlib

/-!
Shallow embedding of the book management system in `src/book_manager.py`:
a CRUD layer over a single SQLite table `books`
(id INTEGER PRIMARY KEY AUTOINCREMENT, title TEXT NOT NULL,
author TEXT NOT NULL, year INTEGER, isbn TEXT UNIQUE, genre TEXT).

Rows are modelled as `Book`, the table state as `DB` (rows in rowid order
plus the next rowid to assign).  Each public method of `BookManager` is
embedded as a pure function on `DB`; the `sqlite3` connection life cycle
(`close`, and the ProgrammingError raised when a closed connection is used)
is embedded by the `BookManager` wrapper at the end.  Console output from
the two `except sqlite3.IntegrityError` handlers is made observable through
a `printed` flag in the result of `add_book` and `update_book`.
-/

/-- A row of the `books` table.  `title` and `author` are NOT NULL, so they
are plain strings; `year`, `isbn` and `genre` are nullable. -/
structure Book where
  id : Nat
  title : String
  author : String
  year : Option Int
  isbn : Option String
  genre : Option String
deriving DecidableEq

/-- The state of the `books` table: the rows in rowid (insertion) order and
the next rowid SQLite will assign.  AUTOINCREMENT starts at 1 and ids are
never reused after deletion. -/
structure DB where
  rows : List Book
  nextId : Nat
deriving DecidableEq

/-- A freshly created table (after `_create_table` on a new file). -/
def emptyDB : DB := ⟨[], 1⟩

/-- SQLite default LIKE case folding: ASCII upper-case letters fold to
lower case, all other characters are left alone. -/
def sqliteFold (c : Char) : Char :=
  if 'A' ≤ c ∧ c ≤ 'Z' then Char.ofNat (c.toNat + 32) else c

/-- Modelled backend semantics: SQLite LIKE matching over character lists,
ASCII case-insensitive, with the metacharacter % matching any run of
characters and _ matching exactly one.  The first argument is fuel bounding
the recursion depth; pattern length + string length + 1 steps always
suffice, since every step shortens the pattern or the string. -/
def likeMatchFuel : Nat → List Char → List Char → Bool
  | 0, _, _ => false
  | _ + 1, [], cs => cs.isEmpty
  | n + 1, '%' :: ps, cs =>
    likeMatchFuel n ps cs ||
      (match cs with
        | [] => false
        | _ :: cs2 => likeMatchFuel n ('%' :: ps) cs2)
  | n + 1, '_' :: ps, cs =>
    (match cs with
      | [] => false
      | _ :: cs2 => likeMatchFuel n ps cs2)
  | n + 1, p :: ps, cs =>
    (match cs with
      | [] => false
      | c :: cs2 => (sqliteFold p == sqliteFold c) && likeMatchFuel n ps cs2)

/-- The WHERE clause of `search_books`: `LIKE ?` with the bound pattern
`f"%{search_term}%"` (no escaping of metacharacters in the term). -/
def likeContains (term s : String) : Bool :=
  likeMatchFuel (term.length + s.length + 3) ('%' :: (term.data ++ ['%'])) s.data

/-- Modelled backend semantics: the BINARY collation SQLite uses for
`ORDER BY title`, i.e. byte order on the UTF-8 encodings, which is
lexicographic code-point order on the character lists (UTF-8 preserves
code-point order). -/
def strLeB : List Char → List Char → Bool
  | [], _ => true
  | _ :: _, [] => false
  | c :: cs, d :: ds =>
    if c.toNat = d.toNat then strLeB cs ds
    else decide (c.toNat < d.toNat)

theorem strLeB_trans : ∀ {x y z : List Char},
    strLeB x y = true → strLeB y z = true → strLeB x z = true
  | [], _, _, _, _ => rfl
  | _ :: _, [], _, h1, _ => by simp [strLeB] at h1
  | _ :: _, _ :: _, [], _, h2 => by simp [strLeB] at h2
  | c :: cs, d :: ds, e :: es, h1, h2 => by
    simp only [strLeB] at h1 h2 ⊢
    by_cases hcd : c.toNat = d.toNat
    · by_cases hde : d.toNat = e.toNat
      · rw [if_pos hcd] at h1
        rw [if_pos hde] at h2
        rw [if_pos (hcd.trans hde)]
        exact strLeB_trans h1 h2
      · rw [if_neg hde, decide_eq_true_eq] at h2
        rw [if_neg (by omega), decide_eq_true_eq]
        omega
    · by_cases hde : d.toNat = e.toNat
      · rw [if_neg hcd, decide_eq_true_eq] at h1
        rw [if_neg (by omega), decide_eq_true_eq]
        omega
      · rw [if_neg hcd, decide_eq_true_eq] at h1
        rw [if_neg hde, decide_eq_true_eq] at h2
        rw [if_neg (by omega), decide_eq_true_eq]
        omega

theorem strLeB_total : ∀ (x y : List Char), strLeB x y = true ∨ strLeB y x = true
  | [], _ => Or.inl rfl
  | _ :: _, [] => Or.inr rfl
  | c :: cs, d :: ds => by
    simp only [strLeB]
    by_cases hcd : c.toNat = d.toNat
    · rw [if_pos hcd, if_pos hcd.symm]
      exact strLeB_total cs ds
    · rw [if_neg hcd, if_neg (fun h => hcd h.symm), decide_eq_true_eq, decide_eq_true_eq]
      omega

/-- The comparison behind `ORDER BY title`: BINARY collation on the
(non-null) title column. -/
def titleLE (a b : Book) : Prop := strLeB a.title.data b.title.data = true

instance : DecidableRel titleLE :=
  fun a b => inferInstanceAs (Decidable (strLeB a.title.data b.title.data = true))

instance : IsTotal Book titleLE := ⟨fun a b => strLeB_total a.title.data b.title.data⟩

instance : IsTrans Book titleLE := ⟨fun _ _ _ hab hbc => strLeB_trans hab hbc⟩

/-- `ORDER BY title`: SQLite returns the rows sorted by title; the order of
rows with equal titles is unspecified, modelled here as stable. -/
def sortByTitle (l : List Book) : List Book := List.insertionSort titleLE l

/-- Result of `add_book`: the returned integer (`lastrowid`, or -1 from the
IntegrityError handler), whether the handler printed an error line, and the
table state after the call. -/
structure AddResult where
  ret : Int
  printed : Bool
  db : DB
deriving DecidableEq

/-- Result of `update_book`: the returned boolean, whether the
IntegrityError handler printed an error line, and the table state after. -/
structure UpdateResult where
  ok : Bool
  printed : Bool
  db : DB
deriving DecidableEq

/-- Result of `delete_book`: the returned boolean and the table state. -/
structure DeleteResult where
  ok : Bool
  db : DB
deriving DecidableEq

/-- The UNIQUE check the backend performs on INSERT INTO books: it fails
exactly when the inserted isbn is non-null and already held by some row
(SQLite UNIQUE admits any number of NULLs). -/
def DB.insertIsbnCollision (db : DB) : Option String → Bool
  | none => false
  | some v => db.rows.any (fun r => r.isbn == some v)

/-- `BookManager.add_book`: INSERT INTO books (title, author, year, isbn,
genre) VALUES (?, ?, ?, ?, ?).  A violation of the UNIQUE constraint on
`isbn` raises IntegrityError; the handler prints the error and returns -1.
On success the new rowid is returned. -/
def DB.add_book (db : DB) (title author : String) (year : Option Int)
    (isbn genre : Option String) : AddResult :=
  if db.insertIsbnCollision isbn then
    ⟨-1, true, db⟩
  else
    ⟨(db.nextId : Int), false,
      ⟨db.rows ++ [⟨db.nextId, title, author, year, isbn, genre⟩], db.nextId + 1⟩⟩

/-- `BookManager.get_all_books`: SELECT * FROM books ORDER BY title. -/
def DB.get_all_books (db : DB) : List Book := sortByTitle db.rows

/-- `BookManager.get_book_by_id`: SELECT * FROM books WHERE id = ? then
`fetchone()`; `None` when no row matches. -/
def DB.get_book_by_id (db : DB) (book_id : Nat) : Option Book :=
  db.rows.find? (fun r => r.id == book_id)

/-- `BookManager.search_books`: SELECT * FROM books WHERE title LIKE ? OR
author LIKE ? ORDER BY title, with pattern `f"%{search_term}%"`. -/
def DB.search_books (db : DB) (search_term : String) : List Book :=
  sortByTitle (db.rows.filter
    (fun r => likeContains search_term r.title || likeContains search_term r.author))

/-- The UNIQUE check the backend performs on `UPDATE ... SET isbn = ?
WHERE id = ?`: the written isbn is non-null and also held by a row other
than the one being updated. -/
def DB.updateIsbnConflict (db : DB) (book_id : Nat) : Option String → Bool
  | none => false
  | some v => db.rows.any (fun r => r.isbn == some v && !(r.id == book_id))

/-- The merge `update_book` performs on one nullable field:
`x if x is not None else current`, i.e. an explicitly passed null is
treated exactly like an omitted argument. -/
def mergeField {α : Type} (new : Option α) (curv : Option α) : Option α :=
  match new with
  | some v => some v
  | none => curv

/-- `BookManager.update_book`: loads the current row with
`get_book_by_id`; returns False when it is absent; merges each argument
with the current value (`x if x is not None else current_book[i]`);
executes a single UPDATE writing all five fields; on IntegrityError prints
and returns False, otherwise returns `rowcount > 0`. -/
def DB.update_book (db : DB) (book_id : Nat) (title author : Option String)
    (year : Option Int) (isbn genre : Option String) : UpdateResult :=
  match db.get_book_by_id book_id with
  | none => ⟨false, false, db⟩
  | some current_book =>
    let new_title := title.getD current_book.title
    let new_author := author.getD current_book.author
    let new_year := mergeField year current_book.year
    let new_isbn := mergeField isbn current_book.isbn
    let new_genre := mergeField genre current_book.genre
    if db.updateIsbnConflict book_id new_isbn then
      ⟨false, true, db⟩
    else
      ⟨db.rows.any (fun r => r.id == book_id), false,
        ⟨db.rows.map (fun r =>
          if r.id == book_id then
            ⟨r.id, new_title, new_author, new_year, new_isbn, new_genre⟩
          else r),
         db.nextId⟩⟩

/-- `BookManager.delete_book`: DELETE FROM books WHERE id = ?, returning
`rowcount > 0`. -/
def DB.delete_book (db : DB) (book_id : Nat) : DeleteResult :=
  ⟨db.rows.any (fun r => r.id == book_id),
    ⟨db.rows.filter (fun r => !(r.id == book_id)), db.nextId⟩⟩

/-- `BookManager.get_books_by_genre`: SELECT * FROM books WHERE genre = ?
ORDER BY title (exact, case-sensitive match; NULL genres never match). -/
def DB.get_books_by_genre (db : DB) (genre : String) : List Book :=
  sortByTitle (db.rows.filter (fun r => r.genre == some genre))

/-- The error raised by `sqlite3` when a cursor of a closed connection is
used: ProgrammingError, with message Cannot operate on a closed database.
The design-level name for this condition is StoreClosed. -/
inductive SqliteError where
  | storeClosed
deriving DecidableEq

/-- A `BookManager` instance: the table state plus whether the underlying
connection is still open.  Every public method goes through
`cursor.execute`, which raises once the connection has been closed. -/
structure BookManager where
  db : DB
  isOpen : Bool
deriving DecidableEq

/-- `BookManager.close`: closes the connection; the instance survives but
its cursor becomes unusable. -/
def BookManager.close (m : BookManager) : BookManager := { m with isOpen := false }

/-- `add_book` through the connection: raises on a closed store. -/
def BookManager.add_book (m : BookManager) (title author : String)
    (year : Option Int) (isbn genre : Option String) : Except SqliteError AddResult :=
  if m.isOpen then .ok (m.db.add_book title author year isbn genre)
  else .error .storeClosed

/-- `get_all_books` through the connection: raises on a closed store. -/
def BookManager.get_all_books (m : BookManager) : Except SqliteError (List Book) :=
  if m.isOpen then .ok m.db.get_all_books else .error .storeClosed

/-- `get_book_by_id` through the connection: raises on a closed store. -/
def BookManager.get_book_by_id (m : BookManager) (book_id : Nat) :
    Except SqliteError (Option Book) :=
  if m.isOpen then .ok (m.db.get_book_by_id book_id) else .error .storeClosed

/-- `search_books` through the connection: raises on a closed store. -/
def BookManager.search_books (m : BookManager) (search_term : String) :
    Except SqliteError (List Book) :=
  if m.isOpen then .ok (m.db.search_books search_term) else .error .storeClosed

/-- `update_book` through the connection: raises on a closed store (already
in the initial `get_book_by_id` read). -/
def BookManager.update_book (m : BookManager) (book_id : Nat)
    (title author : Option String) (year : Option Int)
    (isbn genre : Option String) : Except SqliteError UpdateResult :=
  if m.isOpen then .ok (m.db.update_book book_id title author year isbn genre)
  else .error .storeClosed

/-- `delete_book` through the connection: raises on a closed store. -/
def BookManager.delete_book (m : BookManager) (book_id : Nat) :
    Except SqliteError DeleteResult :=
  if m.isOpen then .ok (m.db.delete_book book_id) else .error .storeClosed

/-- `get_books_by_genre` through the connection: raises on a closed store. -/
def BookManager.get_books_by_genre (m : BookManager) (genre : String) :
    Except SqliteError (List Book) :=
  if m.isOpen then .ok (m.db.get_books_by_genre genre) else .error .storeClosed

/-! ## Helper lemmas -/

/-- `find?` skips a prefix on which the predicate is everywhere false. -/
theorem find?_append_of_forall_false {α : Type} {p : α → Bool} :
    ∀ {l1 : List α} (l2 : List α), (∀ x ∈ l1, p x = false) →
      (l1 ++ l2).find? p = l2.find? p
  | [], _, _ => rfl
  | x :: xs, l2, h => by
    have hx : p x = false := h x (List.mem_cons_self x xs)
    rw [List.cons_append, List.find?_cons_of_neg]
    · exact find?_append_of_forall_false l2 (fun y hy => h y (List.mem_cons_of_mem x hy))
    · simp [hx]

/-- `find?` commutes with mapping a function that preserves the predicate. -/
theorem find?_map_pred {α : Type} {p : α → Bool} {f : α → α}
    (hf : ∀ x, p (f x) = p x) : ∀ l : List α, (l.map f).find? p = (l.find? p).map f
  | [] => rfl
  | x :: xs => by
    by_cases hx : p x = true
    · rw [List.map_cons, List.find?_cons_of_pos _ (by rw [hf]; exact hx),
        List.find?_cons_of_pos _ hx, Option.map_some']
    · have hx2 : ¬ p x = true := hx
      rw [List.map_cons, List.find?_cons_of_neg _ (by rw [hf]; exact hx2),
        List.find?_cons_of_neg _ hx2, find?_map_pred hf xs]

/-- Membership is preserved by the ORDER BY title sort. -/
theorem mem_sortByTitle {b : Book} {l : List Book} : b ∈ sortByTitle l ↔ b ∈ l :=
  List.mem_insertionSort titleLE

/-- The ORDER BY title sort is sorted by title. -/
theorem sorted_sortByTitle (l : List Book) : (sortByTitle l).Sorted titleLE :=
  List.sorted_insertionSort titleLE l

/-- The ORDER BY title sort permutes the rows. -/
theorem perm_sortByTitle (l : List Book) : (sortByTitle l).Perm l :=
  List.perm_insertionSort titleLE l

/-! ## Concrete states used in witnesses and counterexamples -/

/-- Sample rows with the three titles used in the specification examples. -/
def bHarry : Book := ⟨1, "Harry Potter", "J.K. Rowling", none, none, none⟩

def bHobbit : Book := ⟨2, "The Hobbit", "J.R.R. Tolkien", none, none, none⟩

def b1984 : Book := ⟨3, "1984", "George Orwell", none, none, none⟩

/-- Store holding the three sample titles in insertion order. -/
def dbThree : DB := ⟨[bHarry, bHobbit, b1984], 4⟩

/-- A row holding a non-null isbn, and a store containing only it. -/
def bIsbn : Book := ⟨1, "First Book", "First Author", none, some "978-0001", none⟩

def dbIsbn : DB := ⟨[bIsbn], 2⟩

/-- The row of the partial-update example from the specification. -/
def bOrig : Book := ⟨1, "Original Title", "Original Author", some 2000, none, none⟩

def dbOrig : DB := ⟨[bOrig], 2⟩

/-- Rows with genres Fantasy and Fantasy Fiction. -/
def bFan : Book := ⟨1, "A Fantasy Book", "Some Author", none, none, some "Fantasy"⟩

def bFanFic : Book := ⟨2, "B Other Book", "Other Author", none, none, some "Fantasy Fiction"⟩

def dbGenre : DB := ⟨[bFan, bFanFic], 3⟩

/-- A row whose three optional fields are all non-null. -/
def bFull : Book := ⟨1, "Full Book", "Full Author", some 1999, some "978-0002", some "Drama"⟩

def dbFull : DB := ⟨[bFull], 2⟩

/-- After an update of an existing row whose merged isbn does not conflict
with another row, looking the id up again returns the merge of the supplied
arguments over the previously stored values. -/
theorem get_book_by_id_after_update (db : DB) (book_id : Nat)
    (t a : Option String) (y : Option Int) (i g : Option String) (cur : Book)
    (hcur : db.get_book_by_id book_id = some cur)
    (hnc : db.updateIsbnConflict book_id (mergeField i cur.isbn) = false) :
    (db.update_book book_id t a y i g).db.get_book_by_id book_id =
      some ⟨cur.id, t.getD cur.title, a.getD cur.author,
        mergeField y cur.year, mergeField i cur.isbn, mergeField g cur.genre⟩ := by
  have hfind : db.rows.find? (fun r => r.id == book_id) = some cur := hcur
  have hid : (cur.id == book_id) = true := by
    have h2 := List.find?_some hfind
    simpa using h2
  unfold DB.update_book
  rw [hcur]
  simp only [hnc, Bool.false_eq_true, if_false]
  simp only [DB.get_book_by_id]
  rw [find?_map_pred (p := fun r : Book => r.id == book_id)
    (fun x => by by_cases hx : (x.id == book_id) = true <;> simp [hx]),
    hfind, Option.map_some']
  simp only [hid, if_true]

/-! ## Claims -/

/-- C1 counterexample: with one row holding isbn 978-0001, adding a second
book with the same isbn leaves the store unchanged, but the rejection is
signalled as the reserved numeric sentinel -1 on the very same integer
channel on which a successful call returns the new id (here 2), not as a
ConstraintViolation value distinct from ids; this refutes the claim that
the caller can distinguish the two outcomes without a reserved numeric
sentinel. -/
theorem C1_counterexample :
    (dbIsbn.add_book "Second Book" "Second Author" none (some "978-0001") none).ret = -1 ∧
    (dbIsbn.add_book "Second Book" "Second Author" none (some "978-0001") none).db = dbIsbn ∧
    (dbIsbn.add_book "Second Book" "Second Author" none none none).ret = 2 := by
  decide

/-- C1 (amended): on an add whose non-null isbn is already held by an
existing row, no row is inserted (the table state, hence the row count and
contents, are unchanged) and the call returns the reserved numeric sentinel
-1, while an add that passes the constraint returns the assigned rowid,
which is at least 1 on every reachable state; failure is therefore
distinguishable from success, but only through the sentinel -1 on the id
channel, not through a ConstraintViolation value of its own. -/
theorem C1_add_isbn_collision (db : DB) (t a : String) (y : Option Int)
    (i : Option String) (g : Option String) (hpos : 1 ≤ db.nextId) :
    ((∃ v, i = some v ∧ db.rows.any (fun r => r.isbn == some v) = true) →
      (db.add_book t a y i g).ret = -1 ∧ (db.add_book t a y i g).db = db ∧
      (db.add_book t a y i g).db.rows.length = db.rows.length) ∧
    ((∀ v, i = some v → db.rows.any (fun r => r.isbn == some v) = false) →
      1 ≤ (db.add_book t a y i g).ret) := by
  constructor
  · rintro ⟨v, rfl, hany⟩
    simp [DB.add_book, DB.insertIsbnCollision, hany]
  · intro hok
    have hno : db.insertIsbnCollision i = false := by
      cases i with
      | none => rfl
      | some v => exact hok v rfl
    simp only [DB.add_book, hno, Bool.false_eq_true, if_false]
    exact_mod_cast hpos

/-- C1 witness: the amended theorem applied to the concrete one-row store
with isbn 978-0001. -/
theorem C1_witness :
    1 ≤ dbIsbn.nextId ∧
    ((dbIsbn.add_book "Second Book" "Second Author" none (some "978-0001") none).ret = -1 ∧
     (dbIsbn.add_book "Second Book" "Second Author" none (some "978-0001") none).db = dbIsbn ∧
     (dbIsbn.add_book "Second Book" "Second Author" none (some "978-0001") none).db.rows.length =
       dbIsbn.rows.length) :=
  ⟨by decide,
    (C1_add_isbn_collision dbIsbn "Second Book" "Second Author" none (some "978-0001") none
      (by decide)).1 ⟨"978-0001", rfl, by decide⟩⟩

/-- C3: update on an id with no matching row returns False (the NotFound
outcome) and leaves the store, hence every row, unchanged. -/
theorem C3_update_not_found (db : DB) (book_id : Nat) (t a : Option String)
    (y : Option Int) (i g : Option String)
    (h : db.get_book_by_id book_id = none) :
    (db.update_book book_id t a y i g).ok = false ∧
    (db.update_book book_id t a y i g).db = db := by
  unfold DB.update_book
  rw [h]
  exact ⟨rfl, rfl⟩

/-- C3 witness: updating the nonexistent id 99 on the three-book store. -/
theorem C3_witness :
    dbThree.get_book_by_id 99 = none ∧
    ((dbThree.update_book 99 (some "New Title") none none none none).ok = false ∧
     (dbThree.update_book 99 (some "New Title") none none none none).db = dbThree) :=
  ⟨by decide, C3_update_not_found dbThree 99 (some "New Title") none none none none (by decide)⟩

/-- C5: after close() every operation of the store fails with the
StoreClosed error (the ProgrammingError that sqlite raises on a cursor of
a closed connection) rather than exhibiting undefined behavior. -/
theorem C5_closed_store_fails (m : BookManager) (t a term gnr : String)
    (y y2 : Option Int) (i g t2 a2 i2 g2 : Option String)
    (id1 id2 id3 : Nat) :
    m.close.add_book t a y i g = .error .storeClosed ∧
    m.close.get_all_books = .error .storeClosed ∧
    m.close.get_book_by_id id1 = .error .storeClosed ∧
    m.close.search_books term = .error .storeClosed ∧
    m.close.update_book id2 t2 a2 y2 i2 g2 = .error .storeClosed ∧
    m.close.delete_book id3 = .error .storeClosed ∧
    m.close.get_books_by_genre gnr = .error .storeClosed := by
  simp [BookManager.close, BookManager.add_book, BookManager.get_all_books,
    BookManager.get_book_by_id, BookManager.search_books, BookManager.update_book,
    BookManager.delete_book, BookManager.get_books_by_genre]

/-- C2: updating an existing book loads the current row and writes back, in
a single statement, the merge of the supplied fields over the stored row:
every supplied field takes the new value, every omitted field keeps the
current stored value, and the call reports success. -/
theorem C2_update_merges_fields (db : DB) (book_id : Nat)
    (t a : Option String) (y : Option Int) (i g : Option String) (cur : Book)
    (hcur : db.get_book_by_id book_id = some cur)
    (hnc : db.updateIsbnConflict book_id (mergeField i cur.isbn) = false) :
    (db.update_book book_id t a y i g).ok = true ∧
    (db.update_book book_id t a y i g).db.get_book_by_id book_id =
      some ⟨cur.id, t.getD cur.title, a.getD cur.author,
        mergeField y cur.year, mergeField i cur.isbn, mergeField g cur.genre⟩ := by
  refine ⟨?_, get_book_by_id_after_update db book_id t a y i g cur hcur hnc⟩
  have hfind : db.rows.find? (fun r => r.id == book_id) = some cur := hcur
  have hid : (cur.id == book_id) = true := by
    have h2 := List.find?_some hfind
    simpa using h2
  have hmem : cur ∈ db.rows := List.mem_of_find?_eq_some hfind
  unfold DB.update_book
  rw [hcur]
  simp only [hnc, Bool.false_eq_true, if_false]
  exact List.any_eq_true.mpr ⟨cur, hmem, hid⟩

/-- C2 witness: the specification example; the book originally
(Original Title, Original Author, 2000) updated with a new title and year
2024 keeps its author and takes the two new values. -/
theorem C2_witness :
    dbOrig.get_book_by_id 1 = some bOrig ∧
    ((dbOrig.update_book 1 (some "Updated Title") none (some 2024) none none).ok = true ∧
     (dbOrig.update_book 1 (some "Updated Title") none (some 2024) none none).db.get_book_by_id 1 =
       some ⟨1, "Updated Title", "Original Author", some 2024, none, none⟩) :=
  ⟨by decide,
    C2_update_merges_fields dbOrig 1 (some "Updated Title") none (some 2024) none none bOrig
      (by decide) (by decide)⟩

/-- C4 counterexample: handling the isbn-uniqueness failure of this add,
the core prints a console error line (printed = true) and reports the
failure only through the in-band sentinel -1, refuting the claim that the
core surfaces every storage failure as a typed result and never prints
while handling a failure. -/
theorem C4_counterexample :
    (dbIsbn.add_book "Third Book" "Third Author" none (some "978-0001") none).printed = true ∧
    (dbIsbn.add_book "Third Book" "Third Author" none (some "978-0001") none).ret = -1 := by
  decide

/-- C4 (amended): the core catches the IntegrityError of add and update,
prints an error line to the console from inside the core, and reports the
failure to the caller only through the in-band sentinels -1 and False; the
failure is not silently dropped, but it is printed internally and it is not
surfaced as a typed error distinct from the other outcomes. -/
theorem C4_integrity_failures_printed (db : DB) (t : String) (a : String)
    (y : Option Int) (v : String) (g : Option String)
    (hcol : db.rows.any (fun r => r.isbn == some v) = true) :
    ((db.add_book t a y (some v) g).printed = true ∧
     (db.add_book t a y (some v) g).ret = -1) ∧
    (∀ (book_id : Nat) (t2 a2 : Option String) (y2 : Option Int)
      (i2 g2 : Option String) (cur : Book),
      db.get_book_by_id book_id = some cur →
      db.updateIsbnConflict book_id (mergeField i2 cur.isbn) = true →
      (db.update_book book_id t2 a2 y2 i2 g2).printed = true ∧
      (db.update_book book_id t2 a2 y2 i2 g2).ok = false) := by
  constructor
  · constructor <;> simp [DB.add_book, DB.insertIsbnCollision, hcol]
  · intro book_id t2 a2 y2 i2 g2 cur hcur hconf
    unfold DB.update_book
    rw [hcur]
    simp [hconf]

/-- C4 witness: the amended theorem applied to the one-row store with isbn
978-0002; the colliding add prints and returns -1. -/
theorem C4_witness :
    dbFull.rows.any (fun r => r.isbn == some "978-0002") = true ∧
    ((dbFull.add_book "Another" "Writer" none (some "978-0002") none).printed = true ∧
     (dbFull.add_book "Another" "Writer" none (some "978-0002") none).ret = -1) :=
  ⟨by decide,
    (C4_integrity_failures_printed dbFull "Another" "Writer" none "978-0002" none (by decide)).1⟩

/-- C6: search returns exactly the rows whose title or author matches the
backend LIKE pattern built from the term (substring containment under the
SQLite LIKE semantics, wildcard metacharacters in the term unescaped),
sorted by title ascending; over the three sample books, searching Harry
returns exactly the one book Harry Potter. -/
theorem C6_search_like (db : DB) (term : String) :
    (∀ b : Book, b ∈ db.search_books term ↔
      b ∈ db.rows ∧
        (likeContains term b.title = true ∨ likeContains term b.author = true)) ∧
    (db.search_books term).Sorted titleLE ∧
    dbThree.search_books "Harry" = [bHarry] := by
  refine ⟨?_, sorted_sortByTitle _, by decide⟩
  intro b
  rw [DB.search_books, mem_sortByTitle, List.mem_filter]
  simp [Bool.or_eq_true]

/-- C7: add followed by getById of the returned id yields the book holding
exactly the supplied fields, every omitted optional field stored as NULL. -/
theorem C7_add_then_get (db : DB) (t a : String) (y : Option Int)
    (i g : Option String)
    (hfresh : ∀ r ∈ db.rows, (r.id == db.nextId) = false)
    (hisbn : db.insertIsbnCollision i = false) :
    (db.add_book t a y i g).ret = (db.nextId : Int) ∧
    (db.add_book t a y i g).db.get_book_by_id db.nextId =
      some ⟨db.nextId, t, a, y, i, g⟩ := by
  unfold DB.add_book
  simp only [hisbn, Bool.false_eq_true, if_false]
  refine ⟨trivial, ?_⟩
  show List.find? _ (db.rows ++ [⟨db.nextId, t, a, y, i, g⟩]) = _
  rw [find?_append_of_forall_false _ hfresh]
  simp [List.find?]

/-- C7 witness: adding a book with all optional fields omitted to the empty
store and reading it back by the returned id 1. -/
theorem C7_witness :
    (∀ r ∈ emptyDB.rows, (r.id == emptyDB.nextId) = false) ∧
    emptyDB.insertIsbnCollision none = false ∧
    ((emptyDB.add_book "Solo Title" "Solo Author" none none none).ret = 1 ∧
     (emptyDB.add_book "Solo Title" "Solo Author" none none none).db.get_book_by_id 1 =
       some ⟨1, "Solo Title", "Solo Author", none, none, none⟩) :=
  ⟨by decide, rfl,
    C7_add_then_get emptyDB "Solo Title" "Solo Author" none none none
      (by decide) rfl⟩

/-- C8: getAll returns a permutation of the stored rows sorted by title
ascending; the empty store yields the empty sequence rather than an error,
and the three sample titles come back in the order 1984, Harry Potter,
The Hobbit. -/
theorem C8_get_all_sorted (db : DB) :
    (db.get_all_books).Perm db.rows ∧
    (db.get_all_books).Sorted titleLE ∧
    emptyDB.get_all_books = [] ∧
    dbThree.get_all_books = [b1984, bHarry, bHobbit] :=
  ⟨perm_sortByTitle db.rows, sorted_sortByTitle db.rows, rfl, by decide⟩

/-- C9: getByGenre returns exactly the rows whose genre equals the argument
under case-sensitive exact match, sorted by title ascending; the row with
genre Fantasy Fiction is not returned when filtering on Fantasy. -/
theorem C9_genre_exact_match (db : DB) (genre : String) :
    (∀ b : Book, b ∈ db.get_books_by_genre genre ↔
      b ∈ db.rows ∧ b.genre = some genre) ∧
    (db.get_books_by_genre genre).Sorted titleLE ∧
    dbGenre.get_books_by_genre "Fantasy" = [bFan] := by
  refine ⟨?_, sorted_sortByTitle _, by decide⟩
  intro b
  rw [DB.get_books_by_genre, mem_sortByTitle, List.mem_filter]
  simp

/-- C10: update can never clear a stored non-null optional field back to
null, because an explicitly passed null argument is merged exactly like an
omitted one: whatever row the id resolves to after the call keeps year,
isbn and genre non-null whenever they were non-null before. -/
theorem C10_update_preserves_non_null (db : DB) (book_id : Nat)
    (t a : Option String) (y : Option Int) (i g : Option String)
    (cur after : Book)
    (hcur : db.get_book_by_id book_id = some cur)
    (hafter : (db.update_book book_id t a y i g).db.get_book_by_id book_id = some after) :
    (cur.year.isSome = true → after.year.isSome = true) ∧
    (cur.isbn.isSome = true → after.isbn.isSome = true) ∧
    (cur.genre.isSome = true → after.genre.isSome = true) := by
  cases hconf : db.updateIsbnConflict book_id (mergeField i cur.isbn) with
  | true =>
    have hdb : (db.update_book book_id t a y i g).db = db := by
      unfold DB.update_book
      rw [hcur]
      simp [hconf]
    rw [hdb, hcur] at hafter
    injection hafter with h
    subst h
    exact ⟨fun h => h, fun h => h, fun h => h⟩
  | false =>
    have hmerge := get_book_by_id_after_update db book_id t a y i g cur hcur hconf
    rw [hmerge] at hafter
    injection hafter with h
    subst h
    refine ⟨?_, ?_, ?_⟩
    · intro hy
      cases y with
      | some v => rfl
      | none => simpa using hy
    · intro hi
      cases i with
      | some v => rfl
      | none => simpa using hi
    · intro hg
      cases g with
      | some v => rfl
      | none => simpa using hg

/-- C10 witness: the fully populated row keeps year, isbn and genre
non-null across an update that passes every argument as null. -/
theorem C10_witness :
    dbFull.get_book_by_id 1 = some bFull ∧
    (dbFull.update_book 1 none none none none none).db.get_book_by_id 1 = some bFull ∧
    bFull.year.isSome = true ∧ bFull.isbn.isSome = true ∧ bFull.genre.isSome = true :=
  ⟨by decide, by decide,
    (C10_update_preserves_non_null dbFull 1 none none none none none bFull bFull
      (by decide) (by decide)).1 (by decide),
    (C10_update_preserves_non_null dbFull 1 none none none none none bFull bFull
      (by decide) (by decide)).2.1 (by decide),
    (C10_update_preserves_non_null dbFull 1 none none none none none bFull bFull
      (by decide) (by decide)).2.2 (by decide)⟩
